import Mathlib

/-
Verification development for the radar ES signal simulator
(src/generator.py and src/app.py).

Modelling conventions:
* Numeric values are modelled in exact real arithmetic (the source uses
  IEEE binary64).  Where a claim depends on a division by zero we do not
  use the Lean convention x / 0 = 0 silently: we prove that the
  denominator of the corresponding source expression is zero (and the
  numerator nonzero), which in numpy floating point yields inf or nan.
* The numpy global random generator is modelled as an explicit state of
  an abstract type, threaded through the computation exactly where the
  source calls np.random.seed / np.random.uniform.  The results proved
  below hold for every instantiation of that abstract generator.
* Python round(x, n) rounds half to even; Mathlib round rounds half up.
  The two agree except at exact ties, and no value appearing in the
  concrete runs below is an exact tie at the rounded digit.
* The while loop of generate_es_stream is modelled with explicit fuel:
  the value none means the fuel was exhausted (the source loop had not
  terminated after that many iterations).
* pandas semantics modelled: DataFrame(list) infers columns from the
  dict keys, so DataFrame([]) has no columns and sort_values(by) raises
  KeyError; this is the Except.error branch of sortByTOA.  The sort
  kind used by the source is the pandas default quicksort, which is not
  stable; the insertionSort used here is only a stand-in for an
  arbitrary correct comparison sort, and none of the theorems below
  depend on the order of records with equal TOA_us.
-/

namespace RadarSim

noncomputable section

open Real

/-- METERS_PER_DEGREE constant of generator.py (line 8). -/
def METERS_PER_DEGREE : ℝ := 111320.0

/-- Speed of light constant C of generator.py (line 9). -/
def C : ℝ := 3e8

/-- Transmit antenna gain, source line 45: 10 ** (30 / 10) = 1000. -/
def Gt : ℝ := 10 ^ (30 / 10)

/-- Receive antenna gain, source line 46: 10 ** (30 / 10) = 1000. -/
def Gr : ℝ := 10 ^ (30 / 10)

/-- System loss L, source line 49. -/
def L : ℝ := 1.0

/-- Python round(x, n): round to n decimal digits.  Mathlib round is
half-up while Python is half-even; no concrete value in this file is an
exact tie, so the two agree on everything proved here. -/
def pyRound (x : ℝ) (n : ℕ) : ℝ := ((round (x * 10 ^ n) : ℤ) : ℝ) / 10 ^ n

/-- Python float modulo x % y (sign of the result follows y):
x - y * floor (x / y). -/
def pyMod (x y : ℝ) : ℝ := x - y * (⌊x / y⌋ : ℤ)

/-- np.degrees: radians to degrees. -/
def degrees (r : ℝ) : ℝ := r * 180 / Real.pi

/-- np.arctan2 y x, in real arithmetic (signed zeros do not exist in ℝ;
atan2 0 0 = 0 matches np.arctan2(+0.0, +0.0)). -/
def atan2 (y x : ℝ) : ℝ :=
  if 0 < x then Real.arctan (y / x)
  else if x < 0 then
    (if 0 ≤ y then Real.arctan (y / x) + Real.pi else Real.arctan (y / x) - Real.pi)
  else
    (if 0 < y then Real.pi / 2 else if y < 0 then -(Real.pi / 2) else 0)

/-- Abstract model of the numpy global RandomState: np.random.seed n
replaces the state by seed n, and np.random.uniform lo hi returns a
draw together with the advanced state.  All general theorems below are
proved for every such model. -/
structure RNGModel (σ : Type) where
  seed : ℕ → σ
  uniform : σ → ℝ → ℝ → ℝ × σ

/-- Emitter configuration dictionary of generator.py lines 29-42; the
defaults are the cfg.get defaults of the source. -/
structure EmitterConfig where
  lat : ℝ := 0.0
  lon : ℝ := 0.0
  pt_w : ℝ := 10000.0
  freq : ℝ := 1000.0
  f_type : String := "Fixed"
  f_range : ℝ := 0.0
  f_batch : ℕ := 5
  pri_levels : List ℝ := [100.0]
  p_type : String := "Fixed"
  p_batch : ℕ := 5
  p_jitter_pc : ℝ := 10.0
  pw : ℝ := 10.0

/-- One PDW record: the dict appended at generator.py lines 149-158. -/
structure PDWRecord where
  Emitter_ID : String
  TOA_us : ℝ
  Freq_MHz : ℝ
  PW_us : ℝ
  Amplitude : ℝ
  AC_Lat : ℝ
  AC_Lon : ℝ
  DOA_deg : ℝ

/-- Length in meters of one path leg: np.linalg.norm (p2 - p1) scaled by
METERS_PER_DEGREE (source lines 16-18 and 69-72). -/
def segDist (p1 p2 : ℝ × ℝ) : ℝ :=
  Real.sqrt ((p2.1 - p1.1) ^ 2 + (p2.2 - p1.2) ^ 2) * METERS_PER_DEGREE

/-- Consecutive waypoint pairs, the legs iterated by the source. -/
def legs (wps : List (ℝ × ℝ)) : List ((ℝ × ℝ) × (ℝ × ℝ)) := wps.zip wps.tail

/-- total_path_m of source lines 14-18. -/
def pathLength (wps : List (ℝ × ℝ)) : ℝ :=
  (legs wps).foldl (fun acc pq => acc + segDist pq.1 pq.2) 0

/-- mission_time_us of source lines 20-21. -/
def missionTimeUs (wps : List (ℝ × ℝ)) (speed_mps : ℝ) : ℝ :=
  pathLength wps / speed_mps * 1e6

/-- The leg search of source lines 68-85: returns the first leg (p1, p2)
together with the accumulated distance before it such that
dist ≤ accum + seg, or none when the loop falls through to its else
branch (source lines 86-87). -/
def findLeg (dist : ℝ) : ℝ → List ((ℝ × ℝ) × (ℝ × ℝ)) →
    Option ((ℝ × ℝ) × (ℝ × ℝ) × ℝ)
  | _, [] => none
  | accum, pq :: rest =>
    if dist ≤ accum + segDist pq.1 pq.2 then some (pq.1, pq.2, accum)
    else findLeg dist (accum + segDist pq.1 pq.2) rest

/-- Aircraft kinematics of source lines 64-87: position and heading at
a given travelled distance.  On the break branch the position is the
linear interpolation within the found leg (ratio = (dist - accum) / seg,
which the source computes even when seg = 0, dividing by zero); on the
fall-through branch the position is the last waypoint and heading keeps
its initial value 0. -/
def aircraftState (wps : List (ℝ × ℝ)) (dist : ℝ) : ℝ × ℝ × ℝ :=
  match findLeg dist 0 (legs wps) with
  | some (p1, p2, accum) =>
    let seg := segDist p1 p2
    let ratio := (dist - accum) / seg
    (p1.1 + ratio * (p2.1 - p1.1), p1.2 + ratio * (p2.2 - p1.2),
      pyMod (degrees (atan2 (p2.2 - p1.2) (p2.1 - p1.1)) + 360) 360)
  | none => (((wps.getLast?).getD (0, 0)).1, ((wps.getLast?).getD (0, 0)).2, 0)

/-- Frequency logic of source lines 101-112, threading the global RNG
state.  The Batch-to-Batch branch reseeds the global generator from
radar_id + batch_num before drawing (source lines 108-110). -/
def selectFreq {σ : Type} (M : RNGModel σ) (cfg : EmitterConfig)
    (radar_id pulse_index : ℕ) (s : σ) : ℝ × σ :=
  if cfg.f_type = "Fixed" then (cfg.freq, s)
  else if cfg.f_type = "Agile" then
    let u := M.uniform s (-cfg.f_range) cfg.f_range
    (cfg.freq + u.1, u.2)
  else if cfg.f_type = "Pulse-to-Pulse" then M.uniform s 1000 18000
  else if cfg.f_type = "Batch-to-Batch" then
    let batch_num := pulse_index / cfg.f_batch
    let u := M.uniform (M.seed (radar_id + batch_num)) (-cfg.f_range) cfg.f_range
    (cfg.freq + u.1, u.2)
  else (cfg.freq, s)

/-- PRI logic of source lines 117-129.  List indices that the source
reads with p_levels[i] are modelled with getD; every claim settled
below constrains runs to non-empty PRI lists, the case where the source
would raise IndexError. -/
def selectPRI {σ : Type} (M : RNGModel σ) (cfg : EmitterConfig)
    (pulse_index : ℕ) (s : σ) : ℝ × σ :=
  if cfg.p_type = "Fixed" then (cfg.pri_levels.headI, s)
  else if cfg.p_type = "Staggered" then
    (cfg.pri_levels.getD (pulse_index % cfg.pri_levels.length) 0, s)
  else if cfg.p_type = "Switcher" then
    (cfg.pri_levels.getD ((pulse_index / cfg.p_batch) % cfg.pri_levels.length) 0, s)
  else if cfg.p_type = "Jitter" then
    let center := cfg.pri_levels.headI
    let margin := center * (cfg.p_jitter_pc / 100)
    let u := M.uniform s (-margin) margin
    (center + u.1, u.2)
  else (cfg.pri_levels.headI, s)

/-- Planar emitter-to-aircraft range R of source lines 134-136. -/
def rangeR (rLat rLon acLat acLon : ℝ) : ℝ :=
  Real.sqrt (((rLat - acLat) * METERS_PER_DEGREE) ^ 2 +
    ((rLon - acLon) * METERS_PER_DEGREE) ^ 2)

/-- Numerator of the one-way amplitude, source lines 142-143:
sqrt (pt Gt Gr) times wavelength. -/
def ampNum (pt freq : ℝ) : ℝ := Real.sqrt (pt * Gt * Gr) * (C / (freq * 1e6))

/-- Denominator of the one-way amplitude, source line 144:
4 pi R sqrt L.  The source divides by this with no guard against R = 0. -/
def ampDen (R : ℝ) : ℝ := 4 * Real.pi * R * Real.sqrt L

/-- One iteration body of the pulse loop (source lines 58-161): builds
the PDW record at time t and returns it with the selected PRI and the
advanced RNG state.  Frequency selection runs before PRI selection, as
in the source. -/
def pulseRecord {σ : Type} (M : RNGModel σ) (cfg : EmitterConfig)
    (radar_id pulse_index : ℕ) (wps : List (ℝ × ℝ)) (speed t : ℝ) (s : σ) :
    PDWRecord × ℝ × σ :=
  let dist := speed * (t / 1e6)
  let st := aircraftState wps dist
  let acLat := st.1
  let acLon := st.2.1
  let heading := st.2.2
  let bearing := pyMod (degrees (atan2 (cfg.lon - acLon) (cfg.lat - acLat)) + 360) 360
  let doa := pyMod (bearing - heading + 360) 360
  let fs := selectFreq M cfg radar_id pulse_index s
  let ps := selectPRI M cfg pulse_index fs.2
  let amplitude := ampNum cfg.pt_w fs.1 / ampDen (rangeR cfg.lat cfg.lon acLat acLon)
  (⟨"Radar_" ++ toString radar_id, pyRound t 3, pyRound fs.1 2, pyRound cfg.pw 2,
    amplitude, pyRound acLat 8, pyRound acLon 8, pyRound doa 6⟩, ps.1, ps.2)

/-- The per-emitter while loop of source lines 58-161, with explicit
fuel; none means the fuel was exhausted before the loop terminated. -/
def genLoop {σ : Type} (M : RNGModel σ) (cfg : EmitterConfig) (radar_id : ℕ)
    (wps : List (ℝ × ℝ)) (speed T : ℝ) : ℕ → ℝ → ℕ → σ → Option (List PDWRecord × σ)
  | 0, _, _, _ => none
  | fuel + 1, t, idx, s =>
    if t ≤ T then
      let pr := pulseRecord M cfg radar_id idx wps speed t s
      match genLoop M cfg radar_id wps speed T fuel (t + pr.2.1) (idx + 1) pr.2.2 with
      | none => none
      | some ls => some (pr.1 :: ls.1, ls.2)
    else some ([], s)

/-- The emitter loop of source line 26: emitters are processed in list
order with radar_id = position; the RNG state is threaded from one
emitter to the next, as with the numpy global generator. -/
def genEmitters {σ : Type} (M : RNGModel σ) (wps : List (ℝ × ℝ)) (speed T : ℝ)
    (fuel : ℕ) : List EmitterConfig → ℕ → σ → Option (List PDWRecord × σ)
  | [], _, s => some ([], s)
  | cfg :: rest, i, s =>
    match genLoop M cfg i wps speed T fuel 0 0 s with
    | none => none
    | some ls =>
      match genEmitters M wps speed T fuel rest (i + 1) ls.2 with
      | none => none
      | some ls2 => some (ls.1 ++ ls2.1, ls2.2)

/-- Ordering of records by time of arrival. -/
def toaLE (a b : PDWRecord) : Prop := a.TOA_us ≤ b.TOA_us

instance : DecidableRel toaLE := fun a b => Real.decidableLE a.TOA_us b.TOA_us

/-- Model of source line 166, pd.DataFrame(all_pulses).sort_values(by):
DataFrame infers its columns from the dict keys, so an empty pulse list
gives a frame with no columns and sort_values(by) raises KeyError (the
error branch).  The source sorts with the pandas default quicksort,
which is not stable; insertionSort here stands in for an arbitrary
correct comparison sort and no theorem below depends on the relative
order of records with equal TOA_us. -/
def sortByTOA (l : List PDWRecord) : Except String (List PDWRecord) :=
  if l.isEmpty then Except.error ("KeyError: TOA_us")
  else Except.ok (List.insertionSort toaLE l)

/-- generate_es_stream of generator.py lines 5-167, with explicit fuel
for the while loops. -/
def generate_es_stream {σ : Type} (M : RNGModel σ) (s0 : σ) (fuel : ℕ)
    (configs : List EmitterConfig) (waypoints : List (ℝ × ℝ)) (speed_mps : ℝ) :
    Option (Except String (List PDWRecord)) :=
  match genEmitters M waypoints speed_mps (missionTimeUs waypoints speed_mps)
      fuel configs 0 s0 with
  | none => none
  | some ls => some (sortByTOA ls.1)

/-- PRI input processing of app.py lines 218-221: the comma separated
text is float-parsed; on a parse failure (ValueError) the fallback list
[50000.0] is used.  The argument is the outcome of the float parse
(none = ValueError).  No positivity check is applied anywhere. -/
def processPRIInput (parsed : Option (List ℝ)) : List ℝ :=
  parsed.getD [50000.0]

/-- A degenerate RNG instantiation: state Unit, uniform returns lo. -/
def constRNG : RNGModel Unit := ⟨fun _ => (), fun _ lo _ => (lo, ())⟩

/-- An RNG instantiation with observable state: seeding with n sets the
state to 100 + n, and uniform lo hi from state s returns lo + s and
advances the state. -/
def natRNG : RNGModel ℕ := ⟨fun n => 100 + n, fun s lo _ => (lo + (s : ℝ), s + 1)⟩

/-! Basic lemmas about the embedding. -/

lemma genLoop_zero {σ : Type} (M : RNGModel σ) (cfg : EmitterConfig) (i : ℕ)
    (wps : List (ℝ × ℝ)) (v T t : ℝ) (k : ℕ) (s : σ) :
    genLoop M cfg i wps v T 0 t k s = none := rfl

lemma genLoop_succ_of_le {σ : Type} {M : RNGModel σ} {cfg : EmitterConfig} {i : ℕ}
    {wps : List (ℝ × ℝ)} {v T t : ℝ} {n k : ℕ} {s : σ} (h : t ≤ T) :
    genLoop M cfg i wps v T (n + 1) t k s =
      (match genLoop M cfg i wps v T n
          (t + (pulseRecord M cfg i k wps v t s).2.1) (k + 1)
          (pulseRecord M cfg i k wps v t s).2.2 with
       | none => none
       | some ls => some ((pulseRecord M cfg i k wps v t s).1 :: ls.1, ls.2)) := by
  simp only [genLoop, if_pos h]

lemma genLoop_succ_of_gt {σ : Type} {M : RNGModel σ} {cfg : EmitterConfig} {i : ℕ}
    {wps : List (ℝ × ℝ)} {v T t : ℝ} {n k : ℕ} {s : σ} (h : ¬ t ≤ T) :
    genLoop M cfg i wps v T (n + 1) t k s = some ([], s) := by
  simp only [genLoop, if_neg h]

lemma pulseRecord_pri_fixed {σ : Type} (M : RNGModel σ) {cfg : EmitterConfig}
    (h : cfg.p_type = "Fixed") (i k : ℕ) (wps : List (ℝ × ℝ)) (v t : ℝ) (s : σ) :
    (pulseRecord M cfg i k wps v t s).2.1 = cfg.pri_levels.headI := by
  simp [pulseRecord, selectPRI, h]

lemma pulseRecord_toa {σ : Type} (M : RNGModel σ) (cfg : EmitterConfig)
    (i k : ℕ) (wps : List (ℝ × ℝ)) (v t : ℝ) (s : σ) :
    (pulseRecord M cfg i k wps v t s).1.TOA_us = pyRound t 3 := rfl

lemma segDist_nonneg (p1 p2 : ℝ × ℝ) : 0 ≤ segDist p1 p2 := by
  unfold segDist METERS_PER_DEGREE
  positivity

lemma pathLength_nonneg (wps : List (ℝ × ℝ)) : 0 ≤ pathLength wps := by
  unfold pathLength
  have h : ∀ (l : List ((ℝ × ℝ) × (ℝ × ℝ))) (a : ℝ), 0 ≤ a →
      0 ≤ l.foldl (fun acc pq => acc + segDist pq.1 pq.2) a := by
    intro l
    induction l with
    | nil => intro a ha; simpa using ha
    | cons pq rest ih =>
      intro a ha
      exact ih _ (add_nonneg ha (segDist_nonneg pq.1 pq.2))
  exact h _ 0 le_rfl

lemma missionTimeUs_nonneg (wps : List (ℝ × ℝ)) {v : ℝ} (hv : 0 < v) :
    0 ≤ missionTimeUs wps v := by
  unfold missionTimeUs
  have h1 : (0 : ℝ) ≤ pathLength wps / v := div_nonneg (pathLength_nonneg wps) hv.le
  positivity

lemma pyRound_intCast (m : ℤ) (n : ℕ) : pyRound (m : ℝ) n = m := by
  unfold pyRound
  have h1 : ((m : ℝ) * 10 ^ n) = ((m * 10 ^ n : ℤ) : ℝ) := by push_cast; ring
  rw [h1, round_intCast]
  have h2 : ((10 : ℝ) ^ n) ≠ 0 := by positivity
  push_cast
  field_simp

lemma pyRound_natMul (k m : ℕ) (n : ℕ) : pyRound ((k : ℝ) * m) n = (k : ℝ) * m := by
  have h1 : ((k : ℝ) * m) = ((k * m : ℕ) : ℝ) := by push_cast; ring
  rw [h1]
  have h2 := pyRound_intCast ((k * m : ℕ) : ℤ) n
  push_cast at h2 ⊢
  rw [h2]

/-- Cast bridging for the loop index: k * P ≤ T iff k ≤ floor (T / P),
for positive P and nonnegative T. -/
lemma natMul_le_iff_le_floor {T P : ℝ} (hP : 0 < P) (hT : 0 ≤ T) (k : ℕ) :
    (k : ℝ) * P ≤ T ↔ k ≤ (⌊T / P⌋).toNat := by
  have h0 : (0 : ℤ) ≤ ⌊T / P⌋ := Int.floor_nonneg.mpr (div_nonneg hT hP.le)
  rw [← le_div_iff₀ hP, show ((k : ℝ) = ((k : ℤ) : ℝ)) by push_cast; ring,
    ← Int.le_floor, Int.le_toNat h0]

/-- Main workhorse: the per-emitter loop with Fixed PRI mode and first
PRI value P, started at time k * P and index k, terminates with exactly
floor (T / P) + 1 - k further records whose TOA values are the
multiples of P from k * P to floor (T / P) * P. -/
lemma genLoop_fixed_main {σ : Type} (M : RNGModel σ) (cfg : EmitterConfig)
    (i : ℕ) (wps : List (ℝ × ℝ)) (v : ℝ) {T P : ℝ}
    (hfix : cfg.p_type = "Fixed") (hP : cfg.pri_levels.headI = P) (hPpos : 0 < P)
    (hT : 0 ≤ T) :
    ∀ fuel k (s : σ), ((⌊T / P⌋).toNat + 2 - k ≤ fuel) → ((k : ℝ) * P ≤ T) →
    ∃ l sf, genLoop M cfg i wps v T fuel ((k : ℝ) * P) k s = some (l, sf) ∧
      l.map PDWRecord.TOA_us =
        (List.range ((⌊T / P⌋).toNat + 1 - k)).map
          (fun j => pyRound (((k + j : ℕ) : ℝ) * P) 3) := by
  intro fuel
  induction fuel with
  | zero =>
    intro k s hfuel hk
    exfalso
    have hkN : k ≤ (⌊T / P⌋).toNat := (natMul_le_iff_le_floor hPpos hT k).mp hk
    omega
  | succ n ih =>
    intro k s hfuel hk
    have hkN : k ≤ (⌊T / P⌋).toNat := (natMul_le_iff_le_floor hPpos hT k).mp hk
    set N := (⌊T / P⌋).toNat with hN
    have hpri : (pulseRecord M cfg i k wps v ((k : ℝ) * P) s).2.1 = P := by
      rw [pulseRecord_pri_fixed M hfix, hP]
    have hstep : (k : ℝ) * P + P = ((k + 1 : ℕ) : ℝ) * P := by push_cast; ring
    by_cases hnext : ((k + 1 : ℕ) : ℝ) * P ≤ T
    · -- at least one further pulse after this one
      obtain ⟨l, sf, hgen, hmap⟩ := ih (k + 1)
        (pulseRecord M cfg i k wps v ((k : ℝ) * P) s).2.2 (by omega) hnext
      refine ⟨(pulseRecord M cfg i k wps v ((k : ℝ) * P) s).1 :: l, sf, ?_, ?_⟩
      · rw [genLoop_succ_of_le hk, hpri, hstep, hgen]
      · have hk1N : k + 1 ≤ N := (natMul_le_iff_le_floor hPpos hT (k + 1)).mp hnext
        have hrange : N + 1 - k = (N - k) + 1 := by omega
        rw [List.map_cons, hmap, pulseRecord_toa, hrange,
          List.range_succ_eq_map, List.map_cons, List.map_map]
        have h0 : ((k + 0 : ℕ) : ℝ) * P = (k : ℝ) * P := by push_cast; ring
        have hfun : ((fun j => pyRound (((k + 1 + j : ℕ) : ℝ) * P) 3) : ℕ → ℝ) =
            (fun j => pyRound (((k + j : ℕ) : ℝ) * P) 3) ∘ Nat.succ := by
          funext j
          simp only [Function.comp_apply, Nat.succ_eq_add_one]
          congr 2
          push_cast
          ring
        have hN1 : N + 1 - (k + 1) = N - k := by omega
        rw [hN1] at hmap ⊢
        rw [h0, ← hfun]
    · -- this is the boundary pulse; the loop test fails next time
      have hkNe : k = N := by
        have : ¬ (k + 1 ≤ N) := fun hc =>
          hnext ((natMul_le_iff_le_floor hPpos hT (k + 1)).mpr hc)
        omega
      rcases n with _ | m
      · exfalso; omega
      · refine ⟨[(pulseRecord M cfg i k wps v ((k : ℝ) * P) s).1],
          (pulseRecord M cfg i k wps v ((k : ℝ) * P) s).2.2, ?_, ?_⟩
        · rw [genLoop_succ_of_le hk, hpri, hstep,
            genLoop_succ_of_gt (by exact_mod_cast hnext)]
        · have hone : N + 1 - k = 1 := by omega
          rw [hone, show List.range 1 = [0] from rfl]
          simp [pulseRecord_toa]

/-! Concrete mission of the scenario claims: waypoints (0,0), (0,1). -/

/-- The waypoint list of the spec scenario. -/
def wps01 : List (ℝ × ℝ) := [(0, 0), (0, 1)]

/-- A Fixed-PRI emitter with PRI 100000 microseconds (other fields are
the source defaults). -/
def cfgFixed : EmitterConfig := { pri_levels := [100000.0] }

lemma pathLength_wps01 : pathLength wps01 = 111320 := by
  simp [pathLength, legs, wps01, segDist, METERS_PER_DEGREE]
  norm_num

lemma missionTimeUs_wps01_fast : missionTimeUs wps01 111320 = 1e6 := by
  unfold missionTimeUs
  rw [pathLength_wps01]
  norm_num

lemma missionTimeUs_wps01_scenario : missionTimeUs wps01 111.32 = 1e9 := by
  unfold missionTimeUs
  rw [pathLength_wps01]
  norm_num

/-- C1: for every emitter with PRI mode Fixed and first PRI value
P > 0, and every mission with at least 2 waypoints and positive speed
yielding mission duration T microseconds, the per-emitter loop emits
exactly floor (T / P) + 1 records, whose TOA values are the rounded
multiples 0, P, ..., floor (T / P) * P: the boundary pulse at time
floor (T / P) * P ≤ T is included and nothing is emitted after it. -/
theorem fixed_pri_pulse_count {σ : Type} (M : RNGModel σ) (cfg : EmitterConfig)
    (i : ℕ) (wps : List (ℝ × ℝ)) (v P : ℝ) (s : σ) (fuel : ℕ)
    (hwp : 2 ≤ wps.length) (hv : 0 < v)
    (hfix : cfg.p_type = "Fixed") (hP : cfg.pri_levels.headI = P) (hPpos : 0 < P)
    (hfuel : (⌊missionTimeUs wps v / P⌋).toNat + 2 ≤ fuel) :
    ∃ l sf, genLoop M cfg i wps v (missionTimeUs wps v) fuel 0 0 s = some (l, sf) ∧
      l.length = (⌊missionTimeUs wps v / P⌋).toNat + 1 ∧
      l.map PDWRecord.TOA_us =
        (List.range ((⌊missionTimeUs wps v / P⌋).toNat + 1)).map
          (fun (j : ℕ) => pyRound ((j : ℝ) * P) 3) := by
  have hT := missionTimeUs_nonneg wps hv
  have h0 : ((0 : ℕ) : ℝ) * P ≤ missionTimeUs wps v := by
    simpa using hT
  obtain ⟨l, sf, hgen, hmap⟩ :=
    genLoop_fixed_main M cfg i wps v hfix hP hPpos hT fuel 0 s (by omega) h0
  rw [show ((0 : ℕ) : ℝ) * P = 0 by norm_num] at hgen
  refine ⟨l, sf, hgen, ?_, ?_⟩
  · have hlen := congrArg List.length hmap
    rw [List.length_map, List.length_map, List.length_range] at hlen
    omega
  · rw [hmap]
    refine List.map_congr_left ?_
    intro j hj
    norm_num

/-- Witness for C1 at the concrete mission wps01 with speed 111320:
T = 1e6, P = 100000, count = floor (1e6 / 1e5) + 1 = 11. -/
theorem fixed_pri_pulse_count_witness :
    ∃ l sf, genLoop constRNG cfgFixed 0 wps01 111320
        (missionTimeUs wps01 111320) 12 0 0 () = some (l, sf) ∧ l.length = 11 := by
  have hfloor : ⌊missionTimeUs wps01 111320 / 100000⌋ = (10 : ℤ) := by
    rw [missionTimeUs_wps01_fast,
      show (1e6 : ℝ) / 100000 = ((10 : ℤ) : ℝ) by norm_num, Int.floor_intCast]
  obtain ⟨l, sf, hgen, hlen, hmap⟩ :=
    fixed_pri_pulse_count constRNG cfgFixed 0 wps01 111320 100000 () 12
      (by simp [wps01]) (by norm_num) rfl (by norm_num [cfgFixed]) (by norm_num)
      (by rw [hfloor]; omega)
  refine ⟨l, sf, hgen, ?_⟩
  rw [hlen, hfloor]
  omega

/-- C3 counterexample: with waypoints (0,0), (0,1) and speed 111.32 the
computed total mission duration is 1e9 microseconds (one degree is
111320 m, so the path takes 1000 s), not the 1e6 microseconds stated by
the claim. -/
theorem scenario_duration_counterexample :
    missionTimeUs wps01 111.32 = 1e9 ∧ (1e9 : ℝ) ≠ 1e6 := by
  exact ⟨missionTimeUs_wps01_scenario, by norm_num⟩

/-- C3 amended: for waypoints (0,0), (0,1) and speed 111.32 the mission
duration is exactly 1,000,000,000 microseconds, and a single emitter
with Fixed PRI 100000 microseconds produces exactly 10001 pulses with
TOA values 0, 100000, ..., 1,000,000,000. -/
theorem scenario_amended :
    missionTimeUs wps01 111.32 = 1e9 ∧
    ∃ l, generate_es_stream constRNG () 10003 [cfgFixed] wps01 111.32 =
        some (Except.ok l) ∧ l.length = 10001 ∧
      l.map PDWRecord.TOA_us =
        (List.range 10001).map (fun (k : ℕ) => (k : ℝ) * 100000) := by
  have hT9 := missionTimeUs_wps01_scenario
  have hfloor : ⌊missionTimeUs wps01 111.32 / 100000⌋ = (10000 : ℤ) := by
    rw [hT9, show (1e9 : ℝ) / 100000 = ((10000 : ℤ) : ℝ) by norm_num, Int.floor_intCast]
  have hT : (0 : ℝ) ≤ missionTimeUs wps01 111.32 := by rw [hT9]; norm_num
  have h0 : ((0 : ℕ) : ℝ) * 100000 ≤ missionTimeUs wps01 111.32 := by simpa using hT
  obtain ⟨l, sf, hgen, hmap⟩ :=
    genLoop_fixed_main constRNG cfgFixed 0 wps01 111.32
      (T := missionTimeUs wps01 111.32) (P := 100000) rfl (by norm_num [cfgFixed])
      (by norm_num) hT 10003 0 () (by rw [hfloor]; omega) h0
  rw [show ((0 : ℕ) : ℝ) * (100000 : ℝ) = 0 by norm_num] at hgen
  rw [hfloor] at hmap
  have htn : ((10000 : ℤ).toNat + 1 - 0) = 10001 := by omega
  rw [htn] at hmap
  have hmap2 : l.map PDWRecord.TOA_us =
      (List.range 10001).map (fun (k : ℕ) => (k : ℝ) * 100000) := by
    rw [hmap]
    refine List.map_congr_left ?_
    intro j hj
    have h1 : (((0 + j : ℕ) : ℝ) * (100000 : ℝ)) = ((j : ℝ) * ((100000 : ℕ) : ℝ)) := by
      push_cast
      ring
    rw [h1, pyRound_natMul]
    norm_num
  have hlen : l.length = 10001 := by
    have hl2 := congrArg List.length hmap2
    rw [List.length_map, List.length_map, List.length_range] at hl2
    exact hl2
  have hne : l ≠ [] := by
    intro hc
    rw [hc] at hlen
    simp at hlen
  have hsorted : List.Sorted toaLE l := by
    have hpw : ((List.range 10001).map
        (fun (k : ℕ) => (k : ℝ) * 100000)).Pairwise (· ≤ ·) := by
      refine (List.pairwise_map).mpr ?_
      refine (List.pairwise_lt_range 10001).imp ?_
      intro a b hab
      have hc : (a : ℝ) ≤ b := by exact_mod_cast hab.le
      nlinarith
    rw [← hmap2] at hpw
    exact List.Pairwise.of_map PDWRecord.TOA_us (fun a b h => h) hpw
  have hGE : genEmitters constRNG wps01 111.32 (missionTimeUs wps01 111.32)
      10003 [cfgFixed] 0 () = some (l, sf) := by
    simp [genEmitters, hgen]
  have hEmp : l.isEmpty = false := by
    cases l with
    | nil => exact absurd rfl hne
    | cons a t => rfl
  refine ⟨hT9, l, ?_, hlen, hmap2⟩
  unfold generate_es_stream
  rw [hGE]
  show some (sortByTOA l) = some (Except.ok l)
  unfold sortByTOA
  rw [hEmp]
  simp [List.Sorted.insertionSort_eq hsorted]

/-- C10: with an empty configuration list (and a valid mission) the
final sort has no TOA_us column to sort on: the pandas sort_values call
raises KeyError instead of returning an empty table. -/
theorem empty_configs_error {σ : Type} (M : RNGModel σ) (s0 : σ) (fuel : ℕ)
    (wps : List (ℝ × ℝ)) (v : ℝ) (hwp : 2 ≤ wps.length) (hv : 0 < v) :
    generate_es_stream M s0 fuel [] wps v =
      some (Except.error ("KeyError: TOA_us")) := by
  simp [generate_es_stream, genEmitters, sortByTOA]

/-- Witness for C10 at the concrete mission wps01 with speed 1. -/
theorem empty_configs_error_witness :
    generate_es_stream constRNG () 5 [] wps01 1 =
      some (Except.error ("KeyError: TOA_us")) :=
  empty_configs_error constRNG () 5 wps01 1 (by simp [wps01]) one_pos

/-! Helpers for evaluating single-pulse runs concretely. -/

lemma floorDiv_eq {x y : ℝ} (z : ℤ) (hy : 0 < y) (h1 : (z : ℝ) * y ≤ x)
    (h2 : x < ((z : ℝ) + 1) * y) : ⌊x / y⌋ = z := by
  rw [Int.floor_eq_iff]
  constructor
  · rw [le_div_iff₀ hy]
    exact h1
  · rw [div_lt_iff₀ hy]
    linarith

lemma pyMod_eq_sub {x y : ℝ} (z : ℤ) (hy : 0 < y) (h1 : (z : ℝ) * y ≤ x)
    (h2 : x < ((z : ℝ) + 1) * y) : pyMod x y = x - y * z := by
  unfold pyMod
  rw [floorDiv_eq z hy h1 h2]

lemma segDist_wps01 : segDist ((0 : ℝ), (0 : ℝ)) ((0 : ℝ), (1 : ℝ)) = 111320 := by
  unfold segDist METERS_PER_DEGREE
  norm_num

lemma atan2_one_zero : atan2 1 0 = Real.pi / 2 := by
  unfold atan2
  norm_num

lemma degrees_pi_div_two : degrees (Real.pi / 2) = 90 := by
  unfold degrees
  have h := Real.pi_ne_zero
  field_simp
  ring

lemma pyMod_450_360 : pyMod (450 : ℝ) 360 = 90 := by
  rw [pyMod_eq_sub 1 (by norm_num) (by norm_num) (by norm_num)]
  norm_num

/-- At elapsed time 0 on the mission wps01 the aircraft sits at the
first waypoint (0,0) and the heading of the first leg is 90 degrees
(due east, increasing longitude). -/
lemma aircraftState_wps01_zero : aircraftState wps01 0 = (0, 0, 90) := by
  unfold aircraftState
  rw [show legs wps01 = [(((0 : ℝ), (0 : ℝ)), ((0 : ℝ), (1 : ℝ)))] from rfl]
  unfold findLeg
  rw [if_pos (by rw [segDist_wps01]; norm_num)]
  have h3 : pyMod (degrees (atan2 (1 : ℝ) (0 : ℝ)) + 360) 360 = 90 := by
    rw [atan2_one_zero, degrees_pi_div_two]
    norm_num [pyMod_450_360]
  refine Prod.ext ?_ (Prod.ext ?_ ?_) <;> simp [h3]

/-- For a Fixed-PRI emitter whose PRI exceeds the mission time, the
loop emits exactly the boundary pulse at time 0. -/
lemma genLoop_single_pulse {σ : Type} (M : RNGModel σ) (cfg : EmitterConfig)
    (i : ℕ) (wps : List (ℝ × ℝ)) (v : ℝ) {T P : ℝ}
    (hfix : cfg.p_type = "Fixed") (hP : cfg.pri_levels.headI = P)
    (hT0 : (0 : ℝ) ≤ T) (hTP : ¬ ((0 : ℝ) + P ≤ T)) (s : σ) :
    genLoop M cfg i wps v T 2 0 0 s =
      some ([(pulseRecord M cfg i 0 wps v 0 s).1],
        (pulseRecord M cfg i 0 wps v 0 s).2.2) := by
  rw [genLoop_succ_of_le hT0, pulseRecord_pri_fixed M hfix, hP,
    genLoop_succ_of_gt hTP]

/-- Emitter with PRI text input of -100 passed through the app
processing: Fixed PRI mode, pri_levels = [-100]. -/
def cfgNegPRI : EmitterConfig := { pri_levels := [-100.0] }

/-- C7: the app-side PRI processing accepts the non-positive entry -100
unchanged (its only validation is the float-parse try/except), and the
generation loop run with that configuration never terminates: for every
fuel bound the loop is still running.  The claim that non-positive PRI
values are rejected at configuration-validation time is false of the
code. -/
theorem nonpositive_pri_not_rejected {σ : Type} (M : RNGModel σ) (fuel : ℕ) (s : σ) :
    processPRIInput (some [-100.0]) = [-100.0] ∧
    genLoop M cfgNegPRI 0 wps01 111320 (missionTimeUs wps01 111320) fuel 0 0 s =
      none := by
  refine ⟨rfl, ?_⟩
  rw [missionTimeUs_wps01_fast]
  have hpri : cfgNegPRI.pri_levels.headI = (-100 : ℝ) := by norm_num [cfgNegPRI]
  have aux : ∀ n (t : ℝ) (k : ℕ) (s2 : σ), t ≤ 1e6 →
      genLoop M cfgNegPRI 0 wps01 111320 1e6 n t k s2 = none := by
    intro n
    induction n with
    | zero => intro t k s2 _; rfl
    | succ m ih =>
      intro t k s2 ht
      rw [genLoop_succ_of_le ht, pulseRecord_pri_fixed M rfl, hpri,
        ih (t + -100) (k + 1) _ (by linarith)]
  exact aux fuel 0 0 s (by norm_num)

/-- Emitter located exactly at the first waypoint (0,0), with PRI
larger than the mission time so that exactly one pulse is emitted. -/
def cfgAtOrigin : EmitterConfig := { pri_levels := [2000000000.0] }

lemma pulseRecord_origin_amplitude {σ : Type} (M : RNGModel σ) (s : σ) :
    (pulseRecord M cfgAtOrigin 0 0 wps01 111320 0 s).1.Amplitude =
      ampNum 10000 1000 / ampDen (rangeR 0 0 0 0) := by
  unfold pulseRecord
  simp only [show (111320 : ℝ) * (0 / 1e6) = 0 by norm_num, aircraftState_wps01_zero]
  simp [selectFreq, cfgAtOrigin]
  norm_num

/-- A full single-emitter, single-pulse run on the mission wps01 at
speed 111320: the output table is the one pulse record at time 0. -/
lemma run_single_eq {σ : Type} (M : RNGModel σ) (s : σ) (cfg : EmitterConfig)
    (hfix : cfg.p_type = "Fixed") (hpri : cfg.pri_levels.headI = 2000000000) :
    generate_es_stream M s 2 [cfg] wps01 111320 =
      some (Except.ok [(pulseRecord M cfg 0 0 wps01 111320 0 s).1]) := by
  have hgen := genLoop_single_pulse M cfg 0 wps01 111320
    (T := missionTimeUs wps01 111320) (P := 2000000000) hfix hpri
    (missionTimeUs_nonneg wps01 (by norm_num))
    (by rw [missionTimeUs_wps01_fast]; norm_num) s
  have hGE : genEmitters M wps01 111320 (missionTimeUs wps01 111320) 2
      [cfg] 0 s =
      some ([(pulseRecord M cfg 0 0 wps01 111320 0 s).1],
        (pulseRecord M cfg 0 0 wps01 111320 0 s).2.2) := by
    simp [genEmitters, hgen]
  unfold generate_es_stream
  rw [hGE]
  show some (sortByTOA _) = _
  simp [sortByTOA, List.insertionSort, List.orderedInsert]

lemma run_origin_eq : generate_es_stream constRNG () 2 [cfgAtOrigin] wps01 111320 =
    some (Except.ok [(pulseRecord constRNG cfgAtOrigin 0 0 wps01 111320 0 ()).1]) :=
  run_single_eq constRNG () cfgAtOrigin rfl (by norm_num [cfgAtOrigin])

/-- C4: at the mission wps01 with the emitter located at (0,0), the
pulse at time 0 has emitter-to-aircraft range exactly 0; the amplitude
written into the output record is ampNum / ampDen with ampDen = 0 and
ampNum = 30000: the source divides 30000 by zero (no guard exists at
generator.py lines 134-144), which in IEEE arithmetic produces inf, and
that value is stored in the record.  The claim that a zero range does
not cause a division by zero is false of the code. -/
theorem zero_range_division_by_zero :
    ∃ rec, generate_es_stream constRNG () 2 [cfgAtOrigin] wps01 111320 =
        some (Except.ok [rec]) ∧
      rec.Amplitude = ampNum 10000 1000 / ampDen (rangeR 0 0 0 0) ∧
      rangeR 0 0 0 0 = 0 ∧ ampDen (rangeR 0 0 0 0) = 0 ∧
      ampNum 10000 1000 = 30000 := by
  have hR : rangeR 0 0 0 0 = 0 := by
    unfold rangeR
    norm_num
  have hDen : ampDen (rangeR 0 0 0 0) = 0 := by
    rw [hR]
    unfold ampDen
    ring
  have hNum : ampNum 10000 1000 = 30000 := by
    unfold ampNum Gt Gr C
    rw [show (10000 : ℝ) * 10 ^ (30 / 10) * 10 ^ (30 / 10) = (10 ^ 5 : ℝ) ^ 2 by norm_num,
      Real.sqrt_sq (by norm_num)]
    norm_num
  exact ⟨(pulseRecord constRNG cfgAtOrigin 0 0 wps01 111320 0 ()).1, run_origin_eq,
    pulseRecord_origin_amplitude constRNG (), hR, hDen, hNum⟩

/-- The degenerate mission with a zero-length leg: duplicate waypoints. -/
def wpsDup : List (ℝ × ℝ) := [(0, 0), (0, 0)]

lemma segDist_dup : segDist ((0 : ℝ), (0 : ℝ)) ((0 : ℝ), (0 : ℝ)) = 0 := by
  unfold segDist METERS_PER_DEGREE
  norm_num

lemma missionTimeUs_wpsDup : missionTimeUs wpsDup 111320 = 0 := by
  unfold missionTimeUs pathLength
  rw [show legs wpsDup = [(((0 : ℝ), (0 : ℝ)), ((0 : ℝ), (0 : ℝ)))] from rfl]
  simp only [List.foldl]
  rw [segDist_dup]
  norm_num

/-- C5: on the mission with duplicate waypoints (0,0), (0,0) the run
emits a pulse at time 0 whose kinematics walk selects the zero-length
first leg (the branch condition dist ≤ accum + seg holds with
dist = accum = seg = 0), and the source then computes
ratio = (0 - 0) / 0 (generator.py line 75).  In numpy this 0.0 / 0.0 is
nan, which propagates into the interpolated position and hence into
AC_Lat, AC_Lon and DOA_deg of the record.  The claim that a zero-length
leg does not divide by zero is false of the code. -/
theorem zero_length_leg_division_by_zero :
    missionTimeUs wpsDup 111320 = 0 ∧
    (∃ rec sf, genLoop constRNG cfgFixed 0 wpsDup 111320
        (missionTimeUs wpsDup 111320) 2 0 0 () = some ([rec], sf)) ∧
    findLeg 0 0 (legs wpsDup) = some ((0, 0), (0, 0), 0) ∧
    segDist ((0 : ℝ), (0 : ℝ)) ((0 : ℝ), (0 : ℝ)) = 0 := by
  refine ⟨missionTimeUs_wpsDup, ?_, ?_, segDist_dup⟩
  · exact ⟨_, _, genLoop_single_pulse constRNG cfgFixed 0 wpsDup 111320
      (T := missionTimeUs wpsDup 111320) (P := 100000) rfl
      (by norm_num [cfgFixed]) (by rw [missionTimeUs_wpsDup])
      (by rw [missionTimeUs_wpsDup]; norm_num) ()⟩
  · rw [show legs wpsDup = [(((0 : ℝ), (0 : ℝ)), ((0 : ℝ), (0 : ℝ)))] from rfl]
    unfold findLeg
    rw [if_pos (by rw [segDist_dup]; norm_num)]

/-! DOA range: bounds for pyMod and pyRound, and the loop invariant. -/

lemma pyMod_nonneg_lt {x y : ℝ} (hy : 0 < y) : 0 ≤ pyMod x y ∧ pyMod x y < y := by
  unfold pyMod
  have h1 : ((⌊x / y⌋ : ℤ) : ℝ) ≤ x / y := Int.floor_le _
  have h2 : x / y < (⌊x / y⌋ : ℤ) + 1 := Int.lt_floor_add_one _
  have hx : x / y * y = x := div_mul_cancel₀ x hy.ne'
  have h3 := mul_le_mul_of_nonneg_right h1 hy.le
  have h4 := mul_lt_mul_of_pos_right h2 hy
  rw [hx] at h3 h4
  constructor
  · nlinarith
  · nlinarith

lemma pyRound_six_bounds {x : ℝ} (h0 : 0 ≤ x) (h1 : x < 360) :
    0 ≤ pyRound x 6 ∧ pyRound x 6 ≤ 360 := by
  unfold pyRound
  rw [round_eq]
  constructor
  · apply div_nonneg _ (by norm_num)
    have hf : (0 : ℤ) ≤ ⌊x * 10 ^ 6 + 1 / 2⌋ := Int.floor_nonneg.mpr (by nlinarith)
    exact_mod_cast hf
  · rw [div_le_iff₀ (by norm_num : (0 : ℝ) < 10 ^ 6)]
    have hf : ⌊x * 10 ^ 6 + 1 / 2⌋ ≤ (360000000 : ℤ) := by
      rw [Int.floor_le_iff]
      push_cast
      nlinarith
    calc ((⌊x * 10 ^ 6 + 1 / 2⌋ : ℤ) : ℝ) ≤ ((360000000 : ℤ) : ℝ) := by exact_mod_cast hf
      _ = 360 * 10 ^ 6 := by norm_num

lemma doa_field_bound (z : ℝ) :
    0 ≤ pyRound (pyMod z 360) 6 ∧ pyRound (pyMod z 360) 6 ≤ 360 := by
  obtain ⟨ha, hb⟩ := pyMod_nonneg_lt (x := z) (y := 360) (by norm_num)
  exact pyRound_six_bounds ha (by linarith)

lemma pulseRecord_doa_bound {σ : Type} (M : RNGModel σ) (cfg : EmitterConfig)
    (i k : ℕ) (wps : List (ℝ × ℝ)) (v t : ℝ) (s : σ) :
    0 ≤ (pulseRecord M cfg i k wps v t s).1.DOA_deg ∧
    (pulseRecord M cfg i k wps v t s).1.DOA_deg ≤ 360 :=
  doa_field_bound _

lemma genLoop_doa {σ : Type} (M : RNGModel σ) (cfg : EmitterConfig) (i : ℕ)
    (wps : List (ℝ × ℝ)) (v T : ℝ) :
    ∀ fuel (t : ℝ) (k : ℕ) (s : σ) l sf,
      genLoop M cfg i wps v T fuel t k s = some (l, sf) →
      ∀ r ∈ l, 0 ≤ r.DOA_deg ∧ r.DOA_deg ≤ 360 := by
  intro fuel
  induction fuel with
  | zero =>
    intro t k s l sf h
    rw [genLoop_zero] at h
    exact absurd h (by simp)
  | succ n ih =>
    intro t k s l sf h
    by_cases ht : t ≤ T
    · rw [genLoop_succ_of_le ht] at h
      cases hinner : genLoop M cfg i wps v T n
          (t + (pulseRecord M cfg i k wps v t s).2.1) (k + 1)
          (pulseRecord M cfg i k wps v t s).2.2 with
      | none =>
        rw [hinner] at h
        exact absurd h (by simp)
      | some ls =>
        rw [hinner] at h
        simp only [Option.some.injEq, Prod.mk.injEq] at h
        obtain ⟨hl, hs⟩ := h
        subst hl
        intro r hr
        rcases List.mem_cons.mp hr with hhead | htail
        · rw [hhead]
          exact pulseRecord_doa_bound M cfg i k wps v t s
        · exact ih _ _ _ ls.1 ls.2 hinner r htail
    · rw [genLoop_succ_of_gt ht] at h
      simp only [Option.some.injEq, Prod.mk.injEq] at h
      obtain ⟨hl, hs⟩ := h
      intro r hr
      rw [← hl] at hr
      cases hr

lemma genEmitters_doa {σ : Type} (M : RNGModel σ) (wps : List (ℝ × ℝ))
    (v T : ℝ) (fuel : ℕ) :
    ∀ (configs : List EmitterConfig) (i : ℕ) (s : σ) l sf,
      genEmitters M wps v T fuel configs i s = some (l, sf) →
      ∀ r ∈ l, 0 ≤ r.DOA_deg ∧ r.DOA_deg ≤ 360 := by
  intro configs
  induction configs with
  | nil =>
    intro i s l sf h
    simp only [genEmitters, Option.some.injEq, Prod.mk.injEq] at h
    obtain ⟨hl, hs⟩ := h
    intro r hr
    rw [← hl] at hr
    cases hr
  | cons cfg rest ih =>
    intro i s l sf h
    unfold genEmitters at h
    cases h1 : genLoop M cfg i wps v T fuel 0 0 s with
    | none =>
      simp only [h1] at h
      exact absurd h (by simp)
    | some ls =>
      simp only [h1] at h
      cases h2 : genEmitters M wps v T fuel rest (i + 1) ls.2 with
      | none =>
        simp only [h2] at h
        exact absurd h (by simp)
      | some ls2 =>
        simp only [h2] at h
        simp only [Option.some.injEq, Prod.mk.injEq] at h
        obtain ⟨hl, hs⟩ := h
        subst hl
        intro r hr
        rcases List.mem_append.mp hr with hr1 | hr2
        · exact genLoop_doa M cfg i wps v T fuel 0 0 s ls.1 ls.2 h1 r hr1
        · exact ih (i + 1) ls.2 ls2.1 ls2.2 h2 r hr2

/-- C6 amended: on a mission whose legs all have positive length, every
DOA_deg value written into the output lies in the closed interval
[0, 360].  The half-open claim [0, 360) fails only at the upper
endpoint, which the rounding to 6 decimals can produce.  The hypothesis
hlegs excludes the zero-length-leg runs of C5, where the source divides
0.0 by 0.0 in the kinematics and a NaN (outside any interval) reaches
DOA_deg; this bound is claimed only for runs free of that division by
zero. -/
theorem doa_range_amended {σ : Type} (M : RNGModel σ) (s0 : σ) (fuel : ℕ)
    (configs : List EmitterConfig) (wps : List (ℝ × ℝ)) (v : ℝ)
    (tbl : List PDWRecord)
    (hlegs : ∀ pq ∈ legs wps, 0 < segDist pq.1 pq.2)
    (h : generate_es_stream M s0 fuel configs wps v = some (Except.ok tbl)) :
    ∀ r ∈ tbl, 0 ≤ r.DOA_deg ∧ r.DOA_deg ≤ 360 := by
  unfold generate_es_stream at h
  cases hg : genEmitters M wps v (missionTimeUs wps v) fuel configs 0 s0 with
  | none =>
    rw [hg] at h
    exact absurd h (by simp)
  | some ls =>
    rw [hg] at h
    simp only [Option.some.injEq] at h
    unfold sortByTOA at h
    by_cases he : ls.1.isEmpty
    · rw [if_pos he] at h
      exact absurd h (by simp)
    · rw [if_neg he] at h
      simp only [Except.ok.injEq] at h
      intro r hr
      rw [← h] at hr
      have hr2 : r ∈ ls.1 := (List.perm_insertionSort toaLE ls.1).mem_iff.mp hr
      exact genEmitters_doa M wps v (missionTimeUs wps v) fuel configs 0 s0
        ls.1 ls.2 hg r hr2

/-- Witness for the amended C6 bound, at the single-pulse run of the
emitter at the origin: the one leg of wps01 has length 111320 > 0. -/
theorem doa_range_amended_witness :
    0 ≤ (pulseRecord constRNG cfgAtOrigin 0 0 wps01 111320 0 ()).1.DOA_deg ∧
    (pulseRecord constRNG cfgAtOrigin 0 0 wps01 111320 0 ()).1.DOA_deg ≤ 360 :=
  doa_range_amended constRNG () 2 [cfgAtOrigin] wps01 111320 _
    (by
      intro pq hpq
      rw [show legs wps01 = [(((0 : ℝ), (0 : ℝ)), ((0 : ℝ), (1 : ℝ)))] from rfl,
        List.mem_singleton] at hpq
      subst hpq
      rw [segDist_wps01]
      norm_num)
    run_origin_eq _ (by simp)

/-! The C6 counterexample: an emitter almost exactly ahead of the
aircraft gives a DOA within 5e-7 of 360 degrees, which rounds to 360. -/

lemma arctan_le_self {x : ℝ} (hx : 0 ≤ x) : Real.arctan x ≤ x := by
  have h1 : 0 ≤ Real.arctan x := by
    rw [← Real.arctan_zero]
    exact Real.arctan_strictMono.monotone hx
  have h2 := Real.le_tan h1 (Real.arctan_lt_pi_div_two x)
  rwa [Real.tan_arctan] at h2

lemma arctan_pos_of_pos {x : ℝ} (hx : 0 < x) : 0 < Real.arctan x := by
  rw [← Real.arctan_zero]
  exact Real.arctan_strictMono hx

lemma degA_pos : 0 < degrees (Real.arctan 8e-9) := by
  unfold degrees
  have h1 := arctan_pos_of_pos (x := 8e-9) (by norm_num)
  have h2 := Real.pi_pos
  positivity

lemma degA_lt : degrees (Real.arctan 8e-9) < 5e-7 := by
  unfold degrees
  rw [div_lt_iff₀ Real.pi_pos]
  have h1 := arctan_le_self (x := 8e-9) (by norm_num)
  have h2 := Real.pi_gt_three
  nlinarith

/-- The emitter of the DOA-rounding counterexample: located at
latitude 8e-9, longitude 1, so that at time 0 the bearing from the
aircraft is just below 90 degrees while the heading is exactly 90. -/
def cfgDoa : EmitterConfig := { lat := 8e-9, lon := 1.0, pri_levels := [2000000000.0] }

lemma atan2_doa : atan2 1 8e-9 = Real.pi / 2 - Real.arctan 8e-9 := by
  unfold atan2
  rw [if_pos (by norm_num : (0 : ℝ) < 8e-9),
    show (1 : ℝ) / 8e-9 = ((8e-9 : ℝ))⁻¹ from one_div _]
  exact Real.arctan_inv_of_pos (by norm_num)

lemma degrees_pi_half_sub (b : ℝ) : degrees (Real.pi / 2 - b) = 90 - degrees b := by
  unfold degrees
  have h := Real.pi_ne_zero
  field_simp
  ring

lemma pulseRecord_wps01_doa {σ : Type} (M : RNGModel σ) (s : σ)
    (cfg : EmitterConfig) :
    (pulseRecord M cfg 0 0 wps01 111320 0 s).1.DOA_deg =
      pyRound (pyMod (pyMod (degrees (atan2 cfg.lon cfg.lat) + 360) 360 - 90 + 360)
        360) 6 := by
  unfold pulseRecord
  simp only [show (111320 : ℝ) * (0 / 1e6) = 0 by norm_num, aircraftState_wps01_zero]
  simp

lemma doa_cfgDoa {σ : Type} (M : RNGModel σ) (s : σ) :
    (pulseRecord M cfgDoa 0 0 wps01 111320 0 s).1.DOA_deg =
      pyRound (360 - degrees (Real.arctan 8e-9)) 6 := by
  have hA0 := degA_pos
  have hA1 := degA_lt
  have hbear : pyMod (90 - degrees (Real.arctan 8e-9) + 360) 360 =
      90 - degrees (Real.arctan 8e-9) := by
    rw [pyMod_eq_sub 1 (by norm_num) (by push_cast; linarith) (by push_cast; linarith)]
    push_cast
    ring
  have hdoa : pyMod (90 - degrees (Real.arctan 8e-9) - 90 + 360) 360 =
      360 - degrees (Real.arctan 8e-9) := by
    rw [pyMod_eq_sub 0 (by norm_num) (by push_cast; linarith) (by push_cast; linarith)]
    push_cast
    ring
  rw [pulseRecord_wps01_doa, show cfgDoa.lon = (1 : ℝ) by norm_num [cfgDoa],
    show cfgDoa.lat = (8e-9 : ℝ) by norm_num [cfgDoa], atan2_doa, degrees_pi_half_sub,
    hbear, hdoa]

lemma pyRound_doa_360 : pyRound (360 - degrees (Real.arctan 8e-9)) 6 = 360 := by
  have hA0 := degA_pos
  have hA1 := degA_lt
  unfold pyRound
  rw [round_eq]
  rw [show ⌊(360 - degrees (Real.arctan 8e-9)) * 10 ^ 6 + 1 / 2⌋ = (360000000 : ℤ) by
    rw [Int.floor_eq_iff]
    constructor
    · push_cast
      nlinarith
    · push_cast
      nlinarith]
  norm_num

/-- C6 counterexample: a run whose single output record has
DOA_deg = 360.0 exactly (the pre-rounding DOA is within 5e-7 of 360 and
round(x, 6) carries it to 360), so DOA_deg does not lie in the
half-open interval [0, 360). -/
theorem doa_rounding_counterexample :
    ∃ rec, generate_es_stream constRNG () 2 [cfgDoa] wps01 111320 =
        some (Except.ok [rec]) ∧ rec.DOA_deg = 360 ∧ ¬ (rec.DOA_deg < 360) := by
  refine ⟨(pulseRecord constRNG cfgDoa 0 0 wps01 111320 0 ()).1,
    run_single_eq constRNG () cfgDoa rfl (by norm_num [cfgDoa]), ?_, ?_⟩
  · rw [doa_cfgDoa, pyRound_doa_360]
  · rw [doa_cfgDoa, pyRound_doa_360]
    exact lt_irrefl 360

/-! Batch-to-Batch frequency: reproducibility and the shared-generator
order dependence. -/

lemma pulseRecord_freq_b2b {σ : Type} (M : RNGModel σ) {cfg : EmitterConfig}
    (hb : cfg.f_type = "Batch-to-Batch") (i k : ℕ) (wps : List (ℝ × ℝ))
    (v t : ℝ) (s : σ) :
    (pulseRecord M cfg i k wps v t s).1.Freq_MHz =
      pyRound (cfg.freq + (M.uniform (M.seed (i + k / cfg.f_batch))
        (-cfg.f_range) cfg.f_range).1) 2 := by
  unfold pulseRecord selectFreq
  rw [hb]
  simp

/-- In Batch-to-Batch mode the frequency of the pulse with index k + j
depends only on the emitter id and the batch index, never on the
incoming RNG state or the pulse times. -/
lemma genLoop_b2b_freq {σ : Type} (M : RNGModel σ) (cfg : EmitterConfig)
    (hb : cfg.f_type = "Batch-to-Batch") (i : ℕ) (wps : List (ℝ × ℝ)) (v T : ℝ) :
    ∀ fuel (t : ℝ) (k : ℕ) (s : σ) l sf,
      genLoop M cfg i wps v T fuel t k s = some (l, sf) →
      ∀ j (hj : j < l.length),
        (l.get ⟨j, hj⟩).Freq_MHz =
          pyRound (cfg.freq + (M.uniform (M.seed (i + (k + j) / cfg.f_batch))
            (-cfg.f_range) cfg.f_range).1) 2 := by
  intro fuel
  induction fuel with
  | zero =>
    intro t k s l sf h
    rw [genLoop_zero] at h
    exact absurd h (by simp)
  | succ n ih =>
    intro t k s l sf h
    by_cases ht : t ≤ T
    · rw [genLoop_succ_of_le ht] at h
      cases hinner : genLoop M cfg i wps v T n
          (t + (pulseRecord M cfg i k wps v t s).2.1) (k + 1)
          (pulseRecord M cfg i k wps v t s).2.2 with
      | none =>
        rw [hinner] at h
        exact absurd h (by simp)
      | some ls =>
        rw [hinner] at h
        simp only [Option.some.injEq, Prod.mk.injEq] at h
        obtain ⟨hl, hs⟩ := h
        subst hl
        intro j hj
        cases j with
        | zero =>
          simpa using pulseRecord_freq_b2b M hb i k wps v t s
        | succ j2 =>
          have hj2 : j2 < ls.1.length := by
            have := hj
            simp at this
            omega
          have hrec := ih _ _ _ ls.1 ls.2 hinner j2 hj2
          have hidx : k + 1 + j2 = k + (j2 + 1) := by omega
          rw [hidx] at hrec
          simpa using hrec
    · rw [genLoop_succ_of_gt ht] at h
      simp only [Option.some.injEq, Prod.mk.injEq] at h
      obtain ⟨hl, hs⟩ := h
      intro j hj
      rw [← hl] at hj
      simp at hj

/-- C8: for a Batch-to-Batch emitter, any two per-emitter runs with the
same configuration and emitter id (even from different initial global
RNG states and fuel bounds) produce identical Freq_MHz values at every
common pulse index, and within one run two pulse indices in the same
batch (equal pulse_index div f_batch) carry the same frequency: the
frequency is a function of (emitter id, batch) only, because the source
reseeds the global generator from radar_id + batch_num right before the
draw. -/
theorem batch_to_batch_reproducibility {σ : Type} (M : RNGModel σ)
    (cfg : EmitterConfig) (hb : cfg.f_type = "Batch-to-Batch") (i : ℕ)
    (wps : List (ℝ × ℝ)) (v : ℝ) (fuel1 fuel2 : ℕ) (s1 s2 : σ)
    (l1 l2 : List PDWRecord) (sf1 sf2 : σ)
    (h1 : genLoop M cfg i wps v (missionTimeUs wps v) fuel1 0 0 s1 = some (l1, sf1))
    (h2 : genLoop M cfg i wps v (missionTimeUs wps v) fuel2 0 0 s2 = some (l2, sf2)) :
    (∀ j (hj1 : j < l1.length) (hj2 : j < l2.length),
      (l1.get ⟨j, hj1⟩).Freq_MHz = (l2.get ⟨j, hj2⟩).Freq_MHz) ∧
    (∀ j j2 (hj : j < l1.length) (hj2 : j2 < l1.length),
      j / cfg.f_batch = j2 / cfg.f_batch →
      (l1.get ⟨j, hj⟩).Freq_MHz = (l1.get ⟨j2, hj2⟩).Freq_MHz) := by
  have hc1 := genLoop_b2b_freq M cfg hb i wps v (missionTimeUs wps v)
    fuel1 0 0 s1 l1 sf1 h1
  have hc2 := genLoop_b2b_freq M cfg hb i wps v (missionTimeUs wps v)
    fuel2 0 0 s2 l2 sf2 h2
  constructor
  · intro j hj1 hj2
    rw [hc1 j hj1, hc2 j hj2]
  · intro j j2 hj hj2 hbatch
    rw [hc1 j hj, hc1 j2 hj2]
    simp only [Nat.zero_add]
    rw [hbatch]

/-- A Batch-to-Batch emitter used in the concrete reproducibility and
order-dependence runs. -/
def cfgA : EmitterConfig :=
  { freq := 1000.0, f_type := "Batch-to-Batch", f_range := 100.0,
    pri_levels := [2000000000.0] }

/-- An Agile emitter drawing from the shared global generator. -/
def cfgB : EmitterConfig :=
  { freq := 2000.0, f_type := "Agile", f_range := 100.0,
    pri_levels := [2000000000.0] }

/-- Witness for C8: two single-pulse runs of the Batch-to-Batch emitter
cfgA from the distinct initial RNG states 0 and 7 of natRNG give the
same frequency at pulse 0. -/
theorem batch_to_batch_reproducibility_witness :
    (([(pulseRecord natRNG cfgA 0 0 wps01 111320 0 0).1].get ⟨0, by simp⟩).Freq_MHz =
     ([(pulseRecord natRNG cfgA 0 0 wps01 111320 0 7).1].get ⟨0, by simp⟩).Freq_MHz) := by
  have hrun1 := genLoop_single_pulse natRNG cfgA 0 wps01 111320
    (T := missionTimeUs wps01 111320) (P := 2000000000) rfl (by norm_num [cfgA])
    (missionTimeUs_nonneg wps01 (by norm_num))
    (by rw [missionTimeUs_wps01_fast]; norm_num) 0
  have hrun2 := genLoop_single_pulse natRNG cfgA 0 wps01 111320
    (T := missionTimeUs wps01 111320) (P := 2000000000) rfl (by norm_num [cfgA])
    (missionTimeUs_nonneg wps01 (by norm_num))
    (by rw [missionTimeUs_wps01_fast]; norm_num) 7
  exact (batch_to_batch_reproducibility natRNG cfgA rfl 0 wps01 111320 2 2 0 7
    _ _ _ _ hrun1 hrun2).1 0 (by simp) (by simp)

/-! C9: processing order dependence through the shared generator. -/

lemma pulseRecord_id {σ : Type} (M : RNGModel σ) (cfg : EmitterConfig)
    (i k : ℕ) (wps : List (ℝ × ℝ)) (v t : ℝ) (s : σ) :
    (pulseRecord M cfg i k wps v t s).1.Emitter_ID = "Radar_" ++ toString i := rfl

lemma pulseRecord_freq_agile {σ : Type} (M : RNGModel σ) {cfg : EmitterConfig}
    (hb : cfg.f_type = "Agile") (i k : ℕ) (wps : List (ℝ × ℝ))
    (v t : ℝ) (s : σ) :
    (pulseRecord M cfg i k wps v t s).1.Freq_MHz =
      pyRound (cfg.freq + (M.uniform s (-cfg.f_range) cfg.f_range).1) 2 := by
  unfold pulseRecord selectFreq
  rw [hb]
  simp

/-- The global RNG state after the single pulse of the Batch-to-Batch
emitter cfgA as emitter 0: the seed-then-draw has replaced whatever
state came in. -/
lemma stateAfterA {σ : Type} (M : RNGModel σ) (s : σ) (wps : List (ℝ × ℝ))
    (v t : ℝ) :
    (pulseRecord M cfgA 0 0 wps v t s).2.2 =
      (M.uniform (M.seed 0) (-100) 100).2 := by
  unfold pulseRecord selectPRI selectFreq
  simp [cfgA]
  norm_num

/-- Full two-emitter single-pulse run on wps01 at speed 111320. -/
lemma run_pair_eq {σ : Type} (M : RNGModel σ) (s0 : σ) (c1 c2 : EmitterConfig)
    (hf1 : c1.p_type = "Fixed") (hp1 : c1.pri_levels.headI = 2000000000)
    (hf2 : c2.p_type = "Fixed") (hp2 : c2.pri_levels.headI = 2000000000) :
    generate_es_stream M s0 2 [c1, c2] wps01 111320 =
      some (Except.ok [(pulseRecord M c1 0 0 wps01 111320 0 s0).1,
        (pulseRecord M c2 1 0 wps01 111320 0
          (pulseRecord M c1 0 0 wps01 111320 0 s0).2.2).1]) := by
  have hT0 := missionTimeUs_nonneg wps01 (v := 111320) (by norm_num)
  have hTP : ¬ ((0 : ℝ) + 2000000000 ≤ missionTimeUs wps01 111320) := by
    rw [missionTimeUs_wps01_fast]
    norm_num
  have hg1 := genLoop_single_pulse M c1 0 wps01 111320 hf1 hp1 hT0 hTP s0
  have hg2 := genLoop_single_pulse M c2 1 wps01 111320 hf2 hp2 hT0 hTP
    (pulseRecord M c1 0 0 wps01 111320 0 s0).2.2
  have hGE : genEmitters M wps01 111320 (missionTimeUs wps01 111320) 2
      [c1, c2] 0 s0 =
      some ([(pulseRecord M c1 0 0 wps01 111320 0 s0).1,
        (pulseRecord M c2 1 0 wps01 111320 0
          (pulseRecord M c1 0 0 wps01 111320 0 s0).2.2).1],
        (pulseRecord M c2 1 0 wps01 111320 0
          (pulseRecord M c1 0 0 wps01 111320 0 s0).2.2).2.2) := by
    simp [genEmitters, hg1, hg2]
  unfold generate_es_stream
  rw [hGE]
  show some (sortByTOA _) = _
  unfold sortByTOA
  rw [if_neg (by simp)]
  have hsorted : List.Sorted toaLE
      [(pulseRecord M c1 0 0 wps01 111320 0 s0).1,
       (pulseRecord M c2 1 0 wps01 111320 0
         (pulseRecord M c1 0 0 wps01 111320 0 s0).2.2).1] := by
    refine (List.sorted_cons).mpr ⟨?_, (List.sorted_cons).mpr ⟨by simp, List.sorted_nil⟩⟩
    intro b hb
    rw [List.mem_singleton] at hb
    subst hb
    show toaLE _ _
    unfold toaLE
    rw [pulseRecord_toa, pulseRecord_toa]
  rw [List.Sorted.insertionSort_eq hsorted]

/-- C9: with the Batch-to-Batch emitter cfgA and the Agile emitter cfgB,
swapping the order of the emitter list changes the frequency that the
Agile emitter receives, whenever the generator draws differently from
the post-reseed state than from the original state (the hypothesis
hdraw, satisfied by any non-degenerate generator): the Batch-to-Batch
reseed of the shared global generator perturbs the later Agile draw, so
the two outputs differ beyond the relabeling Radar_0/Radar_1 of the
emitter identities. -/
theorem emitter_order_perturbs_output {σ : Type} (M : RNGModel σ) (s0 : σ)
    (t1 t2 : List PDWRecord)
    (h1 : generate_es_stream M s0 2 [cfgA, cfgB] wps01 111320 = some (Except.ok t1))
    (h2 : generate_es_stream M s0 2 [cfgB, cfgA] wps01 111320 = some (Except.ok t2))
    (hdraw : pyRound (2000 +
        (M.uniform (M.uniform (M.seed 0) (-100) 100).2 (-100) 100).1) 2 ≠
      pyRound (2000 + (M.uniform s0 (-100) 100).1) 2) :
    (t1.filter (fun r => r.Emitter_ID == "Radar_1")).map PDWRecord.Freq_MHz ≠
    (t2.filter (fun r => r.Emitter_ID == "Radar_0")).map PDWRecord.Freq_MHz := by
  rw [run_pair_eq M s0 cfgA cfgB rfl (by norm_num [cfgA]) rfl (by norm_num [cfgB])]
    at h1
  rw [run_pair_eq M s0 cfgB cfgA rfl (by norm_num [cfgB]) rfl (by norm_num [cfgA])]
    at h2
  simp only [Option.some.injEq, Except.ok.injEq] at h1 h2
  subst h1
  subst h2
  have eid0 : (("Radar_" ++ toString (0 : ℕ)) == "Radar_1") = false := rfl
  have eid1 : (("Radar_" ++ toString (1 : ℕ)) == "Radar_1") = true := rfl
  have eid2 : (("Radar_" ++ toString (0 : ℕ)) == "Radar_0") = true := rfl
  have eid3 : (("Radar_" ++ toString (1 : ℕ)) == "Radar_0") = false := rfl
  simp only [List.filter, pulseRecord_id, eid0, eid1, eid2, eid3, List.map]
  simp only [ne_eq, List.cons.injEq, and_true]
  rw [pulseRecord_freq_agile M rfl 1 0 wps01 111320 0 _,
    pulseRecord_freq_agile M rfl 0 0 wps01 111320 0 s0, stateAfterA]
  show ¬ (pyRound (cfgB.freq + _) 2 = pyRound (cfgB.freq + _) 2)
  have hBf : cfgB.freq = 2000 := by norm_num [cfgB]
  have hBr : cfgB.f_range = 100 := by norm_num [cfgB]
  rw [hBf, hBr]
  exact hdraw

/-- Witness for C9 at the concrete generator natRNG with initial state
7: the Agile frequency is 2001 when processed after the Batch-to-Batch
emitter and 1907 when processed first. -/
theorem emitter_order_perturbs_output_witness :
    (List.filter (fun r => r.Emitter_ID == "Radar_1")
       [(pulseRecord natRNG cfgA 0 0 wps01 111320 0 7).1,
        (pulseRecord natRNG cfgB 1 0 wps01 111320 0
          (pulseRecord natRNG cfgA 0 0 wps01 111320 0 7).2.2).1]).map
      PDWRecord.Freq_MHz ≠
    (List.filter (fun r => r.Emitter_ID == "Radar_0")
       [(pulseRecord natRNG cfgB 0 0 wps01 111320 0 7).1,
        (pulseRecord natRNG cfgA 1 0 wps01 111320 0
          (pulseRecord natRNG cfgB 0 0 wps01 111320 0 7).2.2).1]).map
      PDWRecord.Freq_MHz := by
  refine emitter_order_perturbs_output natRNG 7 _ _
    (run_pair_eq natRNG 7 cfgA cfgB rfl (by norm_num [cfgA]) rfl (by norm_num [cfgB]))
    (run_pair_eq natRNG 7 cfgB cfgA rfl (by norm_num [cfgB]) rfl (by norm_num [cfgA]))
    ?_
  have hv1 : (2000 : ℝ) +
      (natRNG.uniform (natRNG.uniform (natRNG.seed 0) (-100) 100).2 (-100) 100).1 =
      ((2001 : ℤ) : ℝ) := by
    simp [natRNG]
    norm_num
  have hv2 : (2000 : ℝ) + (natRNG.uniform 7 (-100) 100).1 = ((1907 : ℤ) : ℝ) := by
    simp [natRNG]
    norm_num
  rw [hv1, hv2, pyRound_intCast, pyRound_intCast]
  norm_num

end

end RadarSim
